import Mathlib

/-!
Shallow embedding of `src/agentguard/transport.py` (the AgentGuard Python SDK
transport layer) together with the parts of its environment the transport
interacts with (HTTP client, network responses, JSON bodies).

The module defines two transports:

* `AsyncTransport` -- buffers `ExecutionEvent`s and flushes them in batches to
  `POST api_url/v1/ingest/batch` (transport.py lines 26-142).
* `SyncTransport` -- posts a single event to `POST api_url/v1/verify` and
  returns the parsed JSON response (transport.py lines 145-194).

Modelling decisions, each tied to the source:

* Events are an abstract type parameter `Event`.  The class `ExecutionEvent`
  lives in `agentguard/models.py`, which is not part of the sources under
  `src/`; the transport only ever calls `event.model_dump(mode="json")` on it,
  so serialization is passed in as an abstract fallible function
  `ser : Event → Except String JValue` (pydantic `model_dump(mode="json")`
  raises on unserializable payloads, hence `Except`).
* JSON documents are the inductive `JValue`; numbers are rationals, which is
  faithful for every value the transport and its tests exchange.
* The network is an oracle `PostOut`: a POST either fails at the network
  level or yields a response with a status code and a parsed JSON body.
  `httpx.Response.raise_for_status` raises exactly when the status is not
  2xx, embedded as `statusOk`.
* Python exceptions escaping a transport method are an explicit `Bool` flag
  in the return value (state changes made before the exception stick, as they
  do in Python).
* The one suspension point of `flush` is the awaited POST (line 120), made
  while the lock is released; events enqueued concurrently during the attempt
  land at the tail of the (already swapped-out) buffer.  They are passed to
  `flush` as the list `during`.  A purely sequential call is `during = []`.
-/

/-- JSON values, as exchanged on the wire and produced by serialization. -/
inductive JValue : Type where
  | null : JValue
  | bool (b : Bool) : JValue
  | num (q : ℚ) : JValue
  | str (s : String) : JValue
  | arr (xs : List JValue) : JValue
  | obj (fields : List (String × JValue)) : JValue

/-- An HTTP response as the transport sees it: the status code and the parsed
JSON body (`response.json()`). -/
structure HttpResponse : Type where
  statusCode : Nat
  jsonBody : JValue

/-- Outcome of one network POST: a network-level error (connect error,
timeout, ...) or a response from the server. -/
inductive PostOut : Type where
  | netError : PostOut
  | response (r : HttpResponse) : PostOut

/-- `httpx` success predicate: `raise_for_status` does not raise exactly for
2xx status codes. -/
def statusOk (s : Nat) : Bool := 200 ≤ s && s < 300

/-- Whether a POST outcome makes `raise_for_status` (or the POST itself)
raise: a network error or a non-2xx status. -/
def postFailed : PostOut → Bool
  | PostOut.netError => true
  | PostOut.response r => !statusOk r.statusCode

/-- An `httpx` client as configured by the transports: the timeout and default
headers given at construction (transport.py lines 69-72 and 169-172), plus the
closed flag (`is_closed`). -/
structure HttpClient : Type where
  timeout : ℚ
  headers : List (String × String)
  isClosed : Bool
deriving DecidableEq, Repr

/-- An outgoing HTTP POST request: target URL, the headers the client attaches
to it, and the JSON body. -/
structure HttpRequest : Type where
  url : String
  headers : List (String × String)
  body : JValue

/-- `api_url.rstrip("/")` (transport.py lines 52 and 165): drop trailing
slashes. -/
def rstripSlashes (s : String) : String :=
  String.mk ((s.data.reverse.dropWhile (fun c => c = '/')).reverse)

/-- Serialize a list of events left to right, failing at the first event whose
`model_dump` raises — the list comprehension at transport.py line 115. -/
def serList {Event : Type} (ser : Event → Except String JValue) :
    List Event → Except String (List JValue)
  | [] => Except.ok []
  | e :: es => do
    let j ← ser e
    let js ← serList ser es
    pure (j :: js)

/-- State of `AsyncTransport` (transport.py lines 44-60): configuration,
the event buffer `_buffer`, and the lazily created client `_client`.
The `threading.Lock` has no state of its own in this sequential embedding;
the interleaving it guards against is captured by the `during` parameter of
`flush`. -/
structure AsyncTransport (Event : Type) : Type where
  api_url : String
  api_key : String
  flush_interval_s : ℚ
  flush_batch_size : Nat
  timeout_s : ℚ
  buffer : List Event
  client : Option HttpClient

namespace AsyncTransport

/-- `AsyncTransport.__init__` (transport.py lines 44-60). -/
def init {Event : Type} (api_url api_key : String) (flush_interval_s : ℚ)
    (flush_batch_size : Nat) (timeout_s : ℚ) : AsyncTransport Event :=
  { api_url := rstripSlashes api_url
    api_key := api_key
    flush_interval_s := flush_interval_s
    flush_batch_size := flush_batch_size
    timeout_s := timeout_s
    buffer := []
    client := none }

/-- `AsyncTransport._get_client` (transport.py lines 66-73): return the shared
client, creating a fresh one when there is none yet or the current one is
closed.  The fresh client carries the `X-AgentGuard-Key` header. -/
def getClient {Event : Type} (t : AsyncTransport Event) :
    HttpClient × AsyncTransport Event :=
  let fresh : HttpClient :=
    { timeout := t.timeout_s
      headers := [("X-AgentGuard-Key", t.api_key)]
      isClosed := false }
  match t.client with
  | none => (fresh, { t with client := some fresh })
  | some c =>
    if c.isClosed then (fresh, { t with client := some fresh })
    else (c, t)

/-- `AsyncTransport.enqueue` (transport.py lines 79-101): append the event to
the buffer under the lock and read off whether the threshold is reached; then,
outside the lock, try to schedule `flush()` as a task on the running event
loop.  `loopAvailable` models whether `asyncio.get_running_loop()` finds a
loop; when it does not, the `RuntimeError` is caught and logged, so `enqueue`
returns normally either way and never runs a flush inline.  Returns the new
state and whether a flush task was scheduled. -/
def enqueue {Event : Type} (t : AsyncTransport Event) (e : Event)
    (loopAvailable : Bool) : AsyncTransport Event × Bool :=
  let t' := { t with buffer := t.buffer ++ [e] }
  let shouldFlush := t.flush_batch_size ≤ t'.buffer.length
  (t', shouldFlush && loopAvailable)

/-- Result of a call to `flush` (or `close`): the state afterwards, the POST
requests actually issued (none or one), and whether an exception escaped the
call. -/
structure FlushResult (Event : Type) : Type where
  state : AsyncTransport Event
  requests : List HttpRequest
  raised : Bool

/-- `AsyncTransport.flush` (transport.py lines 103-136), step by step:

1. under the lock, return at once if the buffer is empty, else swap the
   buffer out (`batch = list(self._buffer); self._buffer.clear()`);
2. line 115, outside the `try`: serialize the batch; if `model_dump` raises,
   the exception propagates out of `flush` with the buffer already cleared;
3. build the URL and, inside the `try`, get the client and await the POST;
4. `raise_for_status`: on a network error or non-2xx status the `except`
   block prepends the batch back onto the live buffer; on 2xx the batch is
   dropped.

`net` is the outcome the network would give to the POST, and `during` the
events enqueued by concurrent callers while the lock is released (they sit in
the live buffer when `flush` reacquires it). -/
def flush {Event : Type} (t : AsyncTransport Event)
    (ser : Event → Except String JValue) (net : PostOut)
    (during : List Event) : FlushResult Event :=
  if t.buffer.isEmpty then
    { state := { t with buffer := t.buffer ++ during }, requests := [], raised := false }
  else
    let batch := t.buffer
    let t₁ : AsyncTransport Event := { t with buffer := [] }
    match serList ser batch with
    | Except.error _ =>
      { state := { t₁ with buffer := during }, requests := [], raised := true }
    | Except.ok payload =>
      let url := t.api_url ++ "/v1/ingest/batch"
      let gc := t₁.getClient
      let t₂ := gc.2
      let req : HttpRequest :=
        { url := url
          headers := gc.1.headers
          body := JValue.obj [("events", JValue.arr payload)] }
      match net with
      | PostOut.netError =>
        { state := { t₂ with buffer := batch ++ during }, requests := [req], raised := false }
      | PostOut.response r =>
        if statusOk r.statusCode then
          { state := { t₂ with buffer := during }, requests := [req], raised := false }
        else
          { state := { t₂ with buffer := batch ++ during }, requests := [req], raised := false }

/-- `AsyncTransport.close` (transport.py lines 138-142): `await self.flush()`,
then close the client if it exists and is open.  An exception escaping
`flush` (serialization) escapes `close` before the client is closed. -/
def close {Event : Type} (t : AsyncTransport Event)
    (ser : Event → Except String JValue) (net : PostOut)
    (during : List Event) : FlushResult Event :=
  let fr := t.flush ser net during
  if fr.raised then fr
  else
    match fr.state.client with
    | none => fr
    | some c =>
      if c.isClosed then fr
      else { fr with state := { fr.state with client := some { c with isClosed := true } } }

end AsyncTransport

/-- State of `SyncTransport` (transport.py lines 159-172): configuration and
the eagerly created client. -/
structure SyncTransport : Type where
  api_url : String
  api_key : String
  timeout_s : ℚ
  client : HttpClient
deriving DecidableEq, Repr

namespace SyncTransport

/-- `SyncTransport.__init__` (transport.py lines 159-172): the client is
created eagerly with the `X-AgentGuard-Key` header. -/
def init (api_url api_key : String) (timeout_s : ℚ) : SyncTransport :=
  { api_url := rstripSlashes api_url
    api_key := api_key
    timeout_s := timeout_s
    client :=
      { timeout := timeout_s
        headers := [("X-AgentGuard-Key", api_key)]
        isClosed := false } }

/-- What `verify` hands back to its caller. -/
inductive VerifyOut : Type where
  /-- the parsed JSON response body returned on success -/
  | verdict (v : JValue) : VerifyOut
  /-- `model_dump` raised during serialization -/
  | serErr (msg : String) : VerifyOut
  /-- the POST itself raised (network error) -/
  | netErr : VerifyOut
  /-- `raise_for_status` raised `httpx.HTTPStatusError` on a non-2xx status -/
  | statusErr (code : Nat) : VerifyOut

/-- Whether the outcome of `verify` is an exception propagating to the
caller rather than a returned verdict. -/
def VerifyOut.isRaise : VerifyOut → Bool
  | VerifyOut.verdict _ => false
  | _ => true

/-- `SyncTransport.verify` (transport.py lines 178-189): serialize the one
event, POST it to `api_url/v1/verify`, `raise_for_status`, and return the
parsed JSON body.  Also returns the list of requests issued (at most one —
there is no retry). -/
def verify (t : SyncTransport) {Event : Type}
    (ser : Event → Except String JValue) (e : Event) (net : PostOut) :
    VerifyOut × List HttpRequest :=
  match ser e with
  | Except.error m => (VerifyOut.serErr m, [])
  | Except.ok payload =>
    let req : HttpRequest :=
      { url := t.api_url ++ "/v1/verify", headers := t.client.headers, body := payload }
    match net with
    | PostOut.netError => (VerifyOut.netErr, [req])
    | PostOut.response r =>
      if statusOk r.statusCode then (VerifyOut.verdict r.jsonBody, [req])
      else (VerifyOut.statusErr r.statusCode, [req])

/-- `SyncTransport.close` (transport.py lines 191-194): close the client
unless it is closed already. -/
def close (t : SyncTransport) : SyncTransport :=
  if t.client.isClosed then t
  else { t with client := { t.client with isClosed := true } }

end SyncTransport

/-!
A small operational semantics over `AsyncTransport`, to state properties of
call sequences.  A trace interleaves three kinds of steps:

* `enq e` -- a caller invokes `enqueue(e)` (with a running event loop, so
  reaching the threshold schedules a flush task);
* `runTask net` -- the event loop runs one previously scheduled auto-flush
  task to completion, the POST resolving to `net`;
* `flushCall net` -- a caller awaits an explicit `flush()`, the POST
  resolving to `net`.

The machine counts scheduled-but-not-yet-run flush tasks in `pending` and
records the bodies of all issued POSTs in `sent` (oldest first). -/

/-- One step of a trace over the batching transport. -/
inductive TOp (Event : Type) : Type where
  | enq (e : Event) : TOp Event
  | runTask (net : PostOut) : TOp Event
  | flushCall (net : PostOut) : TOp Event

/-- Execution state of a trace: the transport, how many scheduled auto-flush
tasks have not run yet, the bodies of requests sent so far, and whether any
step raised. -/
structure TraceState (Event : Type) : Type where
  transport : AsyncTransport Event
  pending : Nat
  sent : List JValue
  raised : Bool

/-- The trace state right after constructing the transport. -/
def TraceState.start {Event : Type} (api_url api_key : String)
    (flush_interval_s : ℚ) (flush_batch_size : Nat) (timeout_s : ℚ) :
    TraceState Event :=
  { transport := AsyncTransport.init api_url api_key flush_interval_s flush_batch_size timeout_s
    pending := 0
    sent := []
    raised := false }

/-- One transition of the trace machine.  `enqueue` never touches the
network; a scheduled task, when the loop runs it, executes `flush` exactly
like an explicit call does. -/
def TraceState.step {Event : Type} (ser : Event → Except String JValue)
    (s : TraceState Event) : TOp Event → TraceState Event
  | TOp.enq e =>
    let r := s.transport.enqueue e true
    { s with
        transport := r.1
        pending := s.pending + (if r.2 then 1 else 0) }
  | TOp.runTask net =>
    if s.pending = 0 then s
    else
      let fr := s.transport.flush ser net []
      { transport := fr.state
        pending := s.pending - 1
        sent := s.sent ++ fr.requests.map HttpRequest.body
        raised := s.raised || fr.raised }
  | TOp.flushCall net =>
    let fr := s.transport.flush ser net []
    { transport := fr.state
      pending := s.pending
      sent := s.sent ++ fr.requests.map HttpRequest.body
      raised := s.raised || fr.raised }

/-- Run a whole trace left to right. -/
def TraceState.run {Event : Type} (ser : Event → Except String JValue)
    (s : TraceState Event) (ops : List (TOp Event)) : TraceState Event :=
  ops.foldl (TraceState.step ser) s

/-- The schedule in which every auto-scheduled flush task runs to completion
(successfully, with a 2xx response) before the next `enqueue` happens: after
each enqueue, drain the one task it may have scheduled. -/
def TraceState.promptStep {Event : Type} (ser : Event → Except String JValue)
    (ok : HttpResponse) (s : TraceState Event) (e : Event) : TraceState Event :=
  let s₁ := s.step ser (TOp.enq e)
  if s₁.pending = 0 then s₁ else s₁.step ser (TOp.runTask (PostOut.response ok))

/-- Enqueue a list of events under the prompt schedule. -/
def TraceState.promptRun {Event : Type} (ser : Event → Except String JValue)
    (ok : HttpResponse) (s : TraceState Event) (evs : List Event) : TraceState Event :=
  evs.foldl (TraceState.promptStep ser ok) s

/-- Invariant tying the lazily created client to the configuration: whenever a
client exists, its default headers are exactly the `X-AgentGuard-Key` header
with the configured key.  It holds from construction on and every operation
preserves it. -/
def ClientInv {Event : Type} (t : AsyncTransport Event) : Prop :=
  ∀ c, t.client = some c → c.headers = [("X-AgentGuard-Key", t.api_key)]

/-!
Concrete instances used to exercise the theorems, mirroring the fixtures of
`src/tests/test_transport.py`: events are numbered (`Event := Nat`) and
serialize to their JSON number. -/

/-- Serialization used on concrete runs: event `n` becomes the JSON number
`n`.  Total, mirroring an event whose payloads are JSON-serializable. -/
def serNat : Nat → Except String JValue := fun n => Except.ok (JValue.num n)

/-- A serializer whose `model_dump` raises, mirroring an event carrying a
payload that pydantic cannot render in JSON mode. -/
def serBoom : Nat → Except String JValue :=
  fun _ => Except.error "PydanticSerializationError"

/-- The 202 response of the mock ingestion endpoint in the tests. -/
def resp202 : HttpResponse :=
  { statusCode := 202, jsonBody := JValue.obj [("accepted", JValue.num 3)] }

/-- The 500 response of the failing mock endpoints in the tests. -/
def resp500 : HttpResponse :=
  { statusCode := 500, jsonBody := JValue.str "Internal Server Error" }

/-- The 200 verdict body of the mock verification endpoint in the tests. -/
def verdict200 : HttpResponse :=
  { statusCode := 200
    jsonBody := JValue.obj
      [ ("execution_id", JValue.str "exec-123")
      , ("confidence", JValue.num (92 / 100))
      , ("action", JValue.str "pass")
      , ("output", JValue.str "verified")
      , ("corrections", JValue.null)
      , ("checks", JValue.obj []) ] }

/-- The `transport` fixture of the tests: threshold 5, against
`https://api.agentguard.dev` with key `ag_test_key`. -/
def tDemo : AsyncTransport Nat :=
  AsyncTransport.init "https://api.agentguard.dev" "ag_test_key" (1 / 10) 5 2

/-- The same fixture with threshold 3, as in the auto-flush test. -/
def tDemo3 : AsyncTransport Nat :=
  AsyncTransport.init "https://api.agentguard.dev" "ag_test_key" 10 3 2

/-- The `SyncTransport` fixture of the tests. -/
def sDemo : SyncTransport :=
  SyncTransport.init "https://api.agentguard.dev" "ag_test_key" 2

/-- A deferred schedule at threshold 3: four enqueues happen before the
event loop runs any of the flush tasks they scheduled (enqueues 3 and 4 each
schedule one, since the buffer is at or past the threshold), then the loop
runs both tasks, every POST succeeding with 202. -/
def c3DeferredTrace : TraceState Nat :=
  TraceState.run serNat
    (TraceState.start "https://api.agentguard.dev" "ag_test_key" 10 3 2)
    [TOp.enq 1, TOp.enq 2, TOp.enq 3, TOp.enq 4,
     TOp.runTask (PostOut.response resp202), TOp.runTask (PostOut.response resp202)]

/-!
Helper lemmas about the embedded operations, shared by the claim theorems.
-/

theorem serList_ok_of_forall {Event : Type} (ser : Event → Except String JValue) :
    ∀ es : List Event, (∀ x ∈ es, ∃ j, ser x = Except.ok j) →
      ∃ js, serList ser es = Except.ok js := by
  intro es h
  induction es with
  | nil => exact ⟨[], rfl⟩
  | cons e es ih =>
    obtain ⟨j, hj⟩ := h e (List.mem_cons_self e es)
    obtain ⟨js, hjs⟩ := ih (fun x hx => h x (List.mem_cons_of_mem e hx))
    refine ⟨j :: js, ?_⟩
    simp only [serList, hj, hjs]
    rfl

theorem serList_append_ok {Event : Type} (ser : Event → Except String JValue)
    (es₁ es₂ : List Event) (js₁ js₂ : List JValue)
    (h₁ : serList ser es₁ = Except.ok js₁) (h₂ : serList ser es₂ = Except.ok js₂) :
    serList ser (es₁ ++ es₂) = Except.ok (js₁ ++ js₂) := by
  induction es₁ generalizing js₁ with
  | nil =>
    simp [serList] at h₁
    simp [h₁, h₂]
  | cons e es ih =>
    simp only [serList, bind, Except.bind, pure, Except.pure] at h₁ ⊢
    cases he : ser e with
    | error m => simp [he] at h₁
    | ok j =>
      simp only [he] at h₁
      cases hes : serList ser es with
      | error m => simp [hes] at h₁
      | ok js =>
        simp only [hes] at h₁
        cases h₁
        simp [List.cons_append, ih js hes, h₂]

namespace AsyncTransport

theorem getClient_fst_isClosed {Event : Type} (t : AsyncTransport Event) :
    (t.getClient).1.isClosed = false := by
  unfold getClient
  cases t.client with
  | none => rfl
  | some c =>
    by_cases hc : c.isClosed
    · simp [hc]
    · simp [hc]

theorem getClient_fst_headers {Event : Type} (t : AsyncTransport Event)
    (hinv : ClientInv t) :
    (t.getClient).1.headers = [("X-AgentGuard-Key", t.api_key)] := by
  unfold getClient
  cases hc : t.client with
  | none => rfl
  | some c =>
    by_cases hcl : c.isClosed
    · simp [hcl]
    · simpa [hcl] using hinv c hc

theorem getClient_snd_inv {Event : Type} (t : AsyncTransport Event)
    (hinv : ClientInv t) : ClientInv (t.getClient).2 := by
  intro c h
  cases hc : t.client with
  | none =>
    simp [getClient, hc] at h ⊢
    simp [← h]
  | some c₀ =>
    by_cases hcl : c₀.isClosed
    · simp [getClient, hc, hcl] at h ⊢
      simp [← h]
    · simp [getClient, hc, hcl] at h ⊢
      rw [← h]
      exact hinv c₀ hc

end AsyncTransport

theorem AsyncTransport.getClient_snd_config {Event : Type} (t : AsyncTransport Event) :
    (t.getClient).2.api_url = t.api_url
    ∧ (t.getClient).2.api_key = t.api_key
    ∧ (t.getClient).2.flush_interval_s = t.flush_interval_s
    ∧ (t.getClient).2.flush_batch_size = t.flush_batch_size
    ∧ (t.getClient).2.timeout_s = t.timeout_s
    ∧ (t.getClient).2.buffer = t.buffer := by
  cases hc : t.client with
  | none => simp [AsyncTransport.getClient, hc]
  | some c₀ =>
    by_cases hcl : c₀.isClosed
    · simp [AsyncTransport.getClient, hc, hcl]
    · simp [AsyncTransport.getClient, hc, hcl]

theorem AsyncTransport.flush_empty {Event : Type} (t : AsyncTransport Event)
    (ser : Event → Except String JValue) (net : PostOut) (during : List Event)
    (h : t.buffer = []) :
    t.flush ser net during =
      { state := { t with buffer := during }, requests := [], raised := false } := by
  simp [AsyncTransport.flush, h]

theorem AsyncTransport.flush_nonempty {Event : Type} (t : AsyncTransport Event)
    (ser : Event → Except String JValue) (js : List JValue) (net : PostOut)
    (during : List Event)
    (hne : t.buffer ≠ []) (hser : serList ser t.buffer = Except.ok js) :
    t.flush ser net during =
      { state :=
          { (({ t with buffer := [] } : AsyncTransport Event).getClient).2 with
              buffer := if postFailed net then t.buffer ++ during else during }
        requests :=
          [{ url := t.api_url ++ "/v1/ingest/batch"
             headers := (({ t with buffer := [] } : AsyncTransport Event).getClient).1.headers
             body := JValue.obj [("events", JValue.arr js)] }]
        raised := false } := by
  have hie : t.buffer.isEmpty = false := by
    cases hb : t.buffer with
    | nil => exact absurd hb hne
    | cons x xs => simp
  unfold AsyncTransport.flush
  rw [hie]
  simp only [Bool.false_eq_true, if_false, hser]
  cases net with
  | netError => simp [postFailed]
  | response r =>
    by_cases hok : statusOk r.statusCode
    · simp [postFailed, hok]
    · simp [postFailed, hok]

theorem AsyncTransport.flush_ser_error {Event : Type} (t : AsyncTransport Event)
    (ser : Event → Except String JValue) (m : String) (net : PostOut)
    (during : List Event)
    (hne : t.buffer ≠ []) (hser : serList ser t.buffer = Except.error m) :
    t.flush ser net during =
      { state := { t with buffer := during }, requests := [], raised := true } := by
  have hie : t.buffer.isEmpty = false := by
    cases hb : t.buffer with
    | nil => exact absurd hb hne
    | cons x xs => simp
  unfold AsyncTransport.flush
  rw [hie]
  simp only [Bool.false_eq_true, if_false, hser]

theorem AsyncTransport.flush_state_config {Event : Type} (t : AsyncTransport Event)
    (ser : Event → Except String JValue) (net : PostOut) (during : List Event) :
    ((t.flush ser net during).state).api_url = t.api_url
    ∧ ((t.flush ser net during).state).api_key = t.api_key
    ∧ ((t.flush ser net during).state).flush_interval_s = t.flush_interval_s
    ∧ ((t.flush ser net during).state).flush_batch_size = t.flush_batch_size
    ∧ ((t.flush ser net during).state).timeout_s = t.timeout_s := by
  by_cases hie : t.buffer = []
  · rw [AsyncTransport.flush_empty t ser net during hie]
    exact ⟨rfl, rfl, rfl, rfl, rfl⟩
  · cases hser : serList ser t.buffer with
    | error m =>
      rw [AsyncTransport.flush_ser_error t ser m net during hie hser]
      exact ⟨rfl, rfl, rfl, rfl, rfl⟩
    | ok js =>
      rw [AsyncTransport.flush_nonempty t ser js net during hie hser]
      have h := AsyncTransport.getClient_snd_config
        ({ t with buffer := [] } : AsyncTransport Event)
      exact ⟨h.1, h.2.1, h.2.2.1, h.2.2.2.1, h.2.2.2.2.1⟩

theorem AsyncTransport.close_state_config {Event : Type} (t : AsyncTransport Event)
    (ser : Event → Except String JValue) (net : PostOut) (during : List Event) :
    ((t.close ser net during).state).api_url = t.api_url
    ∧ ((t.close ser net during).state).api_key = t.api_key
    ∧ ((t.close ser net during).state).buffer = (t.flush ser net during).state.buffer := by
  have hcfg := AsyncTransport.flush_state_config t ser net during
  unfold AsyncTransport.close
  by_cases hr : (t.flush ser net during).raised
  · simp only [hr, if_true]
    exact ⟨hcfg.1, hcfg.2.1, by trivial⟩
  · simp only [hr, if_false, Bool.false_eq_true]
    cases hc : (t.flush ser net during).state.client with
    | none => exact ⟨hcfg.1, hcfg.2.1, by trivial⟩
    | some c =>
      by_cases hcl : c.isClosed
      · simp only [hcl, if_true]
        exact ⟨hcfg.1, hcfg.2.1, by trivial⟩
      · simp only [hcl, if_false, Bool.false_eq_true]
        exact ⟨hcfg.1, hcfg.2.1, by trivial⟩

theorem AsyncTransport.close_of_raised {Event : Type} (t : AsyncTransport Event)
    (ser : Event → Except String JValue) (net : PostOut) (during : List Event)
    (hr : (t.flush ser net during).raised = true) :
    t.close ser net during = t.flush ser net during := by
  unfold AsyncTransport.close
  simp only [hr, if_true]

theorem AsyncTransport.close_spec {Event : Type} (t : AsyncTransport Event)
    (ser : Event → Except String JValue) (net : PostOut) (during : List Event)
    (hr : (t.flush ser net during).raised = false) :
    t.close ser net during =
      { state :=
          { (t.flush ser net during).state with
              client := ((t.flush ser net during).state.client).map
                (fun c => { c with isClosed := true }) }
        requests := (t.flush ser net during).requests
        raised := false } := by
  unfold AsyncTransport.close
  simp only [hr, Bool.false_eq_true, if_false]
  cases hfc : (t.flush ser net during).state.client with
  | none =>
    simp only [hfc, Option.map_none']
    rw [← hfc, ← hr]
  | some c =>
    by_cases hcl : c.isClosed
    · simp only [hfc, hcl, if_true, Option.map_some']
      have hcc : ({ c with isClosed := true } : HttpClient) = c := by
        cases c with
        | mk timeout headers isClosed => simpa using hcl.symm
      rw [hcc, ← hfc, ← hr]
    · simp [hfc, hcl]

theorem AsyncTransport.close_requests_eq {Event : Type} (t : AsyncTransport Event)
    (ser : Event → Except String JValue) (net : PostOut) (during : List Event) :
    (t.close ser net during).requests = (t.flush ser net during).requests := by
  by_cases hr : (t.flush ser net during).raised
  · rw [AsyncTransport.close_of_raised t ser net during hr]
  · rw [AsyncTransport.close_spec t ser net during (by simpa using hr)]

theorem AsyncTransport.close_raised_eq_false {Event : Type} (t : AsyncTransport Event)
    (ser : Event → Except String JValue) (net : PostOut) (during : List Event)
    (hr : (t.flush ser net during).raised = false) :
    (t.close ser net during).raised = false := by
  rw [AsyncTransport.close_spec t ser net during hr]

theorem AsyncTransport.close_client_closed {Event : Type} (t : AsyncTransport Event)
    (ser : Event → Except String JValue) (net : PostOut) (during : List Event)
    (hr : (t.flush ser net during).raised = false) :
    ∀ c, (t.close ser net during).state.client = some c → c.isClosed = true := by
  intro c hc
  rw [AsyncTransport.close_spec t ser net during hr] at hc
  cases hfc : (t.flush ser net during).state.client with
  | none => rw [hfc] at hc; simp at hc
  | some c₀ =>
    rw [hfc] at hc
    simp only [Option.map_some', Option.some.injEq] at hc
    rw [← hc]

/-- Claim C4: `verify(event)` surfaces any non-2xx response as a raised
request failure (`httpx.HTTPStatusError`) without returning a verdict,
without retrying (exactly one POST is issued), and without swallowing the
error; on a 200 response it returns the parsed JSON body verbatim as the
verdict, with no reinterpretation of its fields. -/
theorem c4_verify_surfaces_failure_and_returns_verdict_verbatim
    {Event : Type} (t : SyncTransport) (ser : Event → Except String JValue)
    (e : Event) (j : JValue) (rBad rOk : HttpResponse)
    (hser : ser e = Except.ok j)
    (hbad : statusOk rBad.statusCode = false)
    (hok : rOk.statusCode = 200) :
    ((t.verify ser e (PostOut.response rBad)).1
        = SyncTransport.VerifyOut.statusErr rBad.statusCode)
    ∧ ((t.verify ser e (PostOut.response rBad)).1.isRaise = true)
    ∧ (((t.verify ser e (PostOut.response rBad)).2).length = 1)
    ∧ ((t.verify ser e (PostOut.response rOk)).1
        = SyncTransport.VerifyOut.verdict rOk.jsonBody)
    ∧ (((t.verify ser e (PostOut.response rOk)).2).length = 1) := by
  have hok' : statusOk rOk.statusCode = true := by
    rw [hok]; decide
  refine ⟨?_, ?_, ?_, ?_, ?_⟩ <;>
    simp [SyncTransport.verify, hser, hbad, hok', SyncTransport.VerifyOut.isRaise]

/-- Witness for C4, mirroring concrete scenarios B and C of the spec: against
the test fixture, a 500 response makes `verify` raise a status error with no
verdict, and the 200 verdict body (confidence 0.92, action "pass") is
returned with exactly those values. -/
theorem c4_witness :
    (serNat 7 = Except.ok (JValue.num 7)
      ∧ statusOk resp500.statusCode = false
      ∧ verdict200.statusCode = 200)
    ∧ ((sDemo.verify serNat 7 (PostOut.response resp500)).1
        = SyncTransport.VerifyOut.statusErr resp500.statusCode)
    ∧ ((sDemo.verify serNat 7 (PostOut.response resp500)).1.isRaise = true)
    ∧ (((sDemo.verify serNat 7 (PostOut.response resp500)).2).length = 1)
    ∧ ((sDemo.verify serNat 7 (PostOut.response verdict200)).1
        = SyncTransport.VerifyOut.verdict verdict200.jsonBody)
    ∧ (((sDemo.verify serNat 7 (PostOut.response verdict200)).2).length = 1) := by
  have h := c4_verify_surfaces_failure_and_returns_verdict_verbatim
    sDemo serNat 7 (JValue.num 7) resp500 verdict200 rfl (by decide) rfl
  exact ⟨⟨rfl, by decide, rfl⟩, h.1, h.2.1, h.2.2.1, h.2.2.2.1, h.2.2.2.2⟩

/-- Claim C5: a `flush` of a non-empty buffer whose POST succeeds (any 2xx
status) issues exactly one request, whose body is exactly the object with
field `events` holding the serialized events in enqueue order, posted to the
ingestion URL; afterwards the buffer holds only the events enqueued after
the swap — in particular it is empty when none were enqueued concurrently. -/
theorem c5_flush_success_sends_batch_and_clears
    {Event : Type} (t : AsyncTransport Event)
    (ser : Event → Except String JValue) (js : List JValue)
    (r : HttpResponse) (during : List Event)
    (hne : t.buffer ≠ []) (hser : serList ser t.buffer = Except.ok js)
    (hok : statusOk r.statusCode = true) :
    (((t.flush ser (PostOut.response r) during).requests).map HttpRequest.body
        = [JValue.obj [("events", JValue.arr js)]])
    ∧ (((t.flush ser (PostOut.response r) during).requests).map HttpRequest.url
        = [t.api_url ++ "/v1/ingest/batch"])
    ∧ (((t.flush ser (PostOut.response r) during).requests).length = 1)
    ∧ ((t.flush ser (PostOut.response r) during).state.buffer = during)
    ∧ ((t.flush ser (PostOut.response r) during).raised = false) := by
  rw [AsyncTransport.flush_nonempty t ser js (PostOut.response r) during hne hser]
  have hpf : postFailed (PostOut.response r) = false := by
    simp [postFailed, hok]
  simp [hpf]

/-- Witness for C5, mirroring concrete scenario A and the test
`test_transport_flush_sends_batch`: three events enqueued at threshold 5,
flushed against a 202 endpoint — one request with body `events = [1, 2, 3]`,
and the buffer becomes empty. -/
theorem c5_witness :
    ((((tDemo.enqueue 1 true).1.enqueue 2 true).1.enqueue 3 true).1.buffer ≠ []
      ∧ serList serNat ((((tDemo.enqueue 1 true).1.enqueue 2 true).1.enqueue 3 true).1.buffer)
          = Except.ok [JValue.num 1, JValue.num 2, JValue.num 3]
      ∧ statusOk resp202.statusCode = true)
    ∧ (((((((tDemo.enqueue 1 true).1.enqueue 2 true).1.enqueue 3 true).1.flush
          serNat (PostOut.response resp202) []).requests).map HttpRequest.body)
        = [JValue.obj [("events",
            JValue.arr [JValue.num 1, JValue.num 2, JValue.num 3])]])
    ∧ ((((((tDemo.enqueue 1 true).1.enqueue 2 true).1.enqueue 3 true).1.flush
          serNat (PostOut.response resp202) []).state.buffer) = []) := by
  have h := c5_flush_success_sends_batch_and_clears
    ((((tDemo.enqueue 1 true).1.enqueue 2 true).1.enqueue 3 true).1)
    serNat [JValue.num 1, JValue.num 2, JValue.num 3] resp202 []
    (by decide) rfl (by decide)
  exact ⟨⟨by decide, rfl, by decide⟩, h.1, h.2.2.2.1⟩

theorem TraceState.step_enq_spec {Event : Type} (ser : Event → Except String JValue)
    (s : TraceState Event) (e : Event) :
    (s.step ser (TOp.enq e)).transport.buffer = s.transport.buffer ++ [e]
    ∧ (s.step ser (TOp.enq e)).sent = s.sent
    ∧ (s.step ser (TOp.enq e)).raised = s.raised :=
  ⟨rfl, rfl, rfl⟩

theorem TraceState.step_flushCall_spec {Event : Type} (ser : Event → Except String JValue)
    (s : TraceState Event) (net : PostOut) (js : List JValue)
    (hne : s.transport.buffer ≠ [])
    (hser : serList ser s.transport.buffer = Except.ok js) :
    (s.step ser (TOp.flushCall net)).transport.buffer
        = (if postFailed net = true then s.transport.buffer else [])
    ∧ (s.step ser (TOp.flushCall net)).sent
        = s.sent ++ [JValue.obj [("events", JValue.arr js)]]
    ∧ (s.step ser (TOp.flushCall net)).raised = s.raised := by
  simp only [TraceState.step]
  rw [AsyncTransport.flush_nonempty s.transport ser js net [] hne hser]
  refine ⟨?_, by simp, by simp⟩
  by_cases hpf : postFailed net = true <;> simp [hpf]

/-- Claim C1: when the POST of a flush fails (network error or non-2xx), the
buffer afterwards is the failed batch prepended ahead of whatever was
enqueued during the attempt — no event lost, none duplicated (with no
concurrent enqueues the length is unchanged) — and temporal order is kept
across flushes: enqueue E1, E2, a failed flush, enqueue E3, then a
successful flush sends the batch [E1, E2, E3] in that order. -/
theorem c1_failed_flush_preserves_buffer_and_order
    {Event : Type} (t : AsyncTransport Event) (ser : Event → Except String JValue)
    (js : List JValue) (net netF : PostOut) (during : List Event)
    (api_url api_key : String) (fi : ℚ) (k : Nat) (ts : ℚ)
    (e₁ e₂ e₃ : Event) (j₁ j₂ j₃ : JValue) (rOk : HttpResponse)
    (hser : serList ser t.buffer = Except.ok js)
    (hfail : postFailed net = true)
    (h₁ : ser e₁ = Except.ok j₁) (h₂ : ser e₂ = Except.ok j₂)
    (h₃ : ser e₃ = Except.ok j₃)
    (hfailF : postFailed netF = true)
    (hok : statusOk rOk.statusCode = true) :
    ((t.flush ser net during).state.buffer = t.buffer ++ during)
    ∧ ((t.flush ser net during).raised = false)
    ∧ (((t.flush ser net []).state.buffer).length = t.buffer.length)
    ∧ ((TraceState.run ser (TraceState.start api_url api_key fi k ts)
          [TOp.enq e₁, TOp.enq e₂, TOp.flushCall netF, TOp.enq e₃,
           TOp.flushCall (PostOut.response rOk)]).sent
        = [JValue.obj [("events", JValue.arr [j₁, j₂])],
           JValue.obj [("events", JValue.arr [j₁, j₂, j₃])]])
    ∧ ((TraceState.run ser (TraceState.start api_url api_key fi k ts)
          [TOp.enq e₁, TOp.enq e₂, TOp.flushCall netF, TOp.enq e₃,
           TOp.flushCall (PostOut.response rOk)]).transport.buffer = []) := by
  have key : ∀ d : List Event,
      (t.flush ser net d).state.buffer = t.buffer ++ d
      ∧ (t.flush ser net d).raised = false := by
    intro d
    by_cases hb : t.buffer = []
    · rw [AsyncTransport.flush_empty t ser net d hb, hb]
      exact ⟨rfl, rfl⟩
    · rw [AsyncTransport.flush_nonempty t ser js net d hb hser]
      simp [hfail]
  refine ⟨(key during).1, (key during).2, ?_, ?_⟩
  · rw [(key []).1]
    simp
  · -- the ordering scenario, stepped through the trace machine
    have hs₁₂ : serList ser [e₁, e₂] = Except.ok [j₁, j₂] := by
      simp only [serList, h₁, h₂, bind, Except.bind, pure, Except.pure]
    have hs₁₂₃ : serList ser [e₁, e₂, e₃] = Except.ok [j₁, j₂, j₃] := by
      simp only [serList, h₁, h₂, h₃, bind, Except.bind, pure, Except.pure]
    set s₀ := (TraceState.start api_url api_key fi k ts : TraceState Event) with hs₀
    set s₁ := s₀.step ser (TOp.enq e₁) with hs₁
    set s₂ := s₁.step ser (TOp.enq e₂) with hs₂
    set s₃ := s₂.step ser (TOp.flushCall netF) with hs₃
    set s₄ := s₃.step ser (TOp.enq e₃) with hs₄
    set s₅ := s₄.step ser (TOp.flushCall (PostOut.response rOk)) with hs₅
    have hrun : TraceState.run ser s₀
        [TOp.enq e₁, TOp.enq e₂, TOp.flushCall netF, TOp.enq e₃,
         TOp.flushCall (PostOut.response rOk)] = s₅ := rfl
    have hb₀ : s₀.transport.buffer = [] := rfl
    have hsent₀ : s₀.sent = [] := rfl
    obtain ⟨hb₁, hsent₁, -⟩ := TraceState.step_enq_spec ser s₀ e₁
    obtain ⟨hb₂, hsent₂, -⟩ := TraceState.step_enq_spec ser s₁ e₂
    have hb₂' : s₂.transport.buffer = [e₁, e₂] := by
      rw [hb₂, hb₁, hb₀]; rfl
    obtain ⟨hb₃, hsent₃, -⟩ := TraceState.step_flushCall_spec ser s₂ netF [j₁, j₂]
      (by rw [hb₂']; simp) (by rw [hb₂']; exact hs₁₂)
    have hb₃' : s₃.transport.buffer = [e₁, e₂] := by
      rw [hb₃, hfailF, hb₂']; simp
    obtain ⟨hb₄, hsent₄, -⟩ := TraceState.step_enq_spec ser s₃ e₃
    have hb₄' : s₄.transport.buffer = [e₁, e₂, e₃] := by
      rw [hb₄, hb₃']; rfl
    obtain ⟨hb₅, hsent₅, -⟩ := TraceState.step_flushCall_spec ser s₄
      (PostOut.response rOk) [j₁, j₂, j₃]
      (by rw [hb₄']; simp) (by rw [hb₄']; exact hs₁₂₃)
    refine ⟨?_, ?_⟩
    · rw [hrun, hsent₅, hsent₄, hsent₃, hsent₂, hsent₁, hsent₀]
      simp
    · rw [hrun, hb₅, hb₄']
      simp [postFailed, hok]

/-- Witness for C1: the test fixture with events 1, 2 buffered, a network
error on the first flush, event 3 enqueued, then a 202 flush — the second
batch is exactly events 1, 2, 3 in order, and a failed flush with
concurrent enqueue [3] yields buffer [1, 2, 3]. -/
theorem c1_witness :
    (serList serNat (((tDemo.enqueue 1 true).1.enqueue 2 true).1.buffer)
        = Except.ok [JValue.num 1, JValue.num 2]
      ∧ postFailed PostOut.netError = true
      ∧ postFailed (PostOut.response resp500) = true
      ∧ statusOk resp202.statusCode = true)
    ∧ ((((tDemo.enqueue 1 true).1.enqueue 2 true).1.flush serNat
          PostOut.netError [3]).state.buffer
        = ((tDemo.enqueue 1 true).1.enqueue 2 true).1.buffer ++ [3])
    ∧ (((((tDemo.enqueue 1 true).1.enqueue 2 true).1.flush serNat
          PostOut.netError []).state.buffer).length
        = (((tDemo.enqueue 1 true).1.enqueue 2 true).1.buffer).length)
    ∧ ((TraceState.run serNat
          (TraceState.start "https://api.agentguard.dev" "ag_test_key" 10 50 2)
          [TOp.enq 1, TOp.enq 2, TOp.flushCall (PostOut.response resp500),
           TOp.enq 3, TOp.flushCall (PostOut.response resp202)]).sent
        = [JValue.obj [("events", JValue.arr [JValue.num 1, JValue.num 2])],
           JValue.obj [("events",
             JValue.arr [JValue.num 1, JValue.num 2, JValue.num 3])]])
    ∧ ((TraceState.run serNat
          (TraceState.start "https://api.agentguard.dev" "ag_test_key" 10 50 2)
          [TOp.enq 1, TOp.enq 2, TOp.flushCall (PostOut.response resp500),
           TOp.enq 3, TOp.flushCall (PostOut.response resp202)]).transport.buffer
        = []) := by
  have h := c1_failed_flush_preserves_buffer_and_order
    (((tDemo.enqueue 1 true).1.enqueue 2 true).1) serNat
    [JValue.num 1, JValue.num 2] PostOut.netError (PostOut.response resp500) [3]
    "https://api.agentguard.dev" "ag_test_key" 10 50 2
    1 2 3 (JValue.num 1) (JValue.num 2) (JValue.num 3) resp202
    rfl rfl rfl rfl rfl (by decide) (by decide)
  exact ⟨⟨rfl, rfl, by decide, by decide⟩, h.1, h.2.2.1, h.2.2.2.1, h.2.2.2.2⟩

/-- Counterexample to claim C2 as stated: with one buffered event whose
serialization raises, `flush` lets the exception escape (`raised = true`)
and the batch is dropped (buffer left empty) instead of absorbing the
failure into buffer state — because the serialization at transport.py
line 115 runs after the buffer swap and outside the try block. -/
theorem c2_counterexample :
    (((tDemo.enqueue 1 false).1.flush serBoom PostOut.netError []).raised = true)
    ∧ (((tDemo.enqueue 1 false).1.flush serBoom PostOut.netError []).state.buffer
        = []) := by
  exact ⟨rfl, rfl⟩

/-- Claim C2 (amended): `enqueue` never raises or blocks — it appends the
event and returns the same state whether or not an execution context is
available to schedule the auto-flush, and it never runs a network call
inline — and a `flush` (or the final flush inside `close`) whose POST fails
at the network level or with a non-2xx status absorbs the failure into
buffer state without raising.  Amendment forced by the counterexample: a
failure of event serialization is not absorbed — it propagates out of
`flush` and `close`, dropping the swapped-out batch. -/
theorem c2_amended_batching_path_absorbs_network_failures
    {Event : Type} (t : AsyncTransport Event) (ser : Event → Except String JValue)
    (js : List JValue) (net : PostOut) (during : List Event) (e : Event) (l : Bool)
    (hser : serList ser t.buffer = Except.ok js) :
    ((t.enqueue e l).1 = (t.enqueue e true).1)
    ∧ ((t.enqueue e l).1.buffer = t.buffer ++ [e])
    ∧ ((t.flush ser net during).raised = false)
    ∧ ((t.close ser net during).raised = false)
    ∧ (postFailed net = true →
        (t.flush ser net during).state.buffer = t.buffer ++ during) := by
  have hfr : (t.flush ser net during).raised = false := by
    by_cases hb : t.buffer = []
    · rw [AsyncTransport.flush_empty t ser net during hb]
    · rw [AsyncTransport.flush_nonempty t ser js net during hb hser]
  refine ⟨rfl, rfl, hfr, AsyncTransport.close_raised_eq_false t ser net during hfr, ?_⟩
  intro hfail
  by_cases hb : t.buffer = []
  · rw [AsyncTransport.flush_empty t ser net during hb, hb]
    rfl
  · rw [AsyncTransport.flush_nonempty t ser js net during hb hser]
    simp [hfail]

/-- Witness for the amended C2: the test fixture with events 1, 2 buffered
and a network error — enqueue appends with no loop available, and flush and
close return without raising. -/
theorem c2_witness :
    (serList serNat (((tDemo.enqueue 1 true).1.enqueue 2 true).1.buffer)
        = Except.ok [JValue.num 1, JValue.num 2])
    ∧ ((((tDemo.enqueue 1 true).1.enqueue 2 true).1.enqueue 9 false).1
        = (((tDemo.enqueue 1 true).1.enqueue 2 true).1.enqueue 9 true).1)
    ∧ ((((tDemo.enqueue 1 true).1.enqueue 2 true).1.enqueue 9 false).1.buffer
        = ((tDemo.enqueue 1 true).1.enqueue 2 true).1.buffer ++ [9])
    ∧ ((((tDemo.enqueue 1 true).1.enqueue 2 true).1.flush serNat
          PostOut.netError []).raised = false)
    ∧ ((((tDemo.enqueue 1 true).1.enqueue 2 true).1.close serNat
          PostOut.netError []).raised = false)
    ∧ (postFailed PostOut.netError = true →
        (((tDemo.enqueue 1 true).1.enqueue 2 true).1.flush serNat
            PostOut.netError []).state.buffer
          = ((tDemo.enqueue 1 true).1.enqueue 2 true).1.buffer ++ []) := by
  have h := c2_amended_batching_path_absorbs_network_failures
    (((tDemo.enqueue 1 true).1.enqueue 2 true).1) serNat
    [JValue.num 1, JValue.num 2] PostOut.netError [] 9 false rfl
  exact ⟨rfl, h.1, h.2.1, h.2.2.1, h.2.2.2.1, h.2.2.2.2⟩

theorem TraceState.run_enq_only {Event : Type} (ser : Event → Except String JValue) :
    ∀ (evs : List Event) (s : TraceState Event),
      s.transport.buffer.length + evs.length < s.transport.flush_batch_size →
      ((TraceState.run ser s (evs.map TOp.enq)).transport
          = { s.transport with buffer := s.transport.buffer ++ evs })
      ∧ ((TraceState.run ser s (evs.map TOp.enq)).pending = s.pending)
      ∧ ((TraceState.run ser s (evs.map TOp.enq)).sent = s.sent)
      ∧ ((TraceState.run ser s (evs.map TOp.enq)).raised = s.raised) := by
  intro evs
  induction evs with
  | nil =>
    intro s h
    refine ⟨?_, rfl, rfl, rfl⟩
    simp [TraceState.run]
  | cons e evs ih =>
    intro s h
    have hstep : TraceState.run ser s ((e :: evs).map TOp.enq)
        = TraceState.run ser (s.step ser (TOp.enq e)) (evs.map TOp.enq) := rfl
    set s' := s.step ser (TOp.enq e) with hs'
    have h2 : (s.transport.enqueue e true).2 = false := by
      have hlt : ¬ (s.transport.flush_batch_size ≤ s.transport.buffer.length + 1) := by
        simp only [List.length_cons] at h
        omega
      simp [AsyncTransport.enqueue, List.length_append, hlt]
    have hpend : s'.pending = s.pending := by
      rw [hs']
      simp only [TraceState.step, h2]
      simp
    have htr : s'.transport = { s.transport with buffer := s.transport.buffer ++ [e] } := rfl
    have hsent : s'.sent = s.sent := rfl
    have hraise : s'.raised = s.raised := rfl
    have hcond : s'.transport.buffer.length + evs.length
        < s'.transport.flush_batch_size := by
      rw [htr]
      simp only [List.length_append, List.length_cons, List.length_nil]
      simp only [List.length_cons] at h
      omega
    obtain ⟨ht, hp, hse, hr⟩ := ih s' hcond
    rw [hstep]
    refine ⟨?_, by rw [hp, hpend], by rw [hse, hsent], by rw [hr, hraise]⟩
    rw [ht, htr]
    simp

/-- Claim C6: N enqueues below the threshold cause no network call — nothing
is sent and no auto-flush is even scheduled, the events just accumulate in
the buffer — and a `flush` on an empty buffer returns immediately without a
network call (no request, no exception; the buffer afterwards holds exactly
what concurrent callers enqueued meanwhile). -/
theorem c6_no_network_below_threshold
    {Event : Type} (ser : Event → Except String JValue)
    (api_url api_key : String) (fi : ℚ) (k : Nat) (ts : ℚ)
    (evs : List Event) (t : AsyncTransport Event) (net : PostOut)
    (during : List Event)
    (hN : evs.length < k) (hemp : t.buffer = []) :
    ((TraceState.run ser (TraceState.start api_url api_key fi k ts)
        (evs.map TOp.enq)).sent = [])
    ∧ ((TraceState.run ser (TraceState.start api_url api_key fi k ts)
        (evs.map TOp.enq)).pending = 0)
    ∧ ((TraceState.run ser (TraceState.start api_url api_key fi k ts)
        (evs.map TOp.enq)).transport.buffer = evs)
    ∧ ((t.flush ser net during).requests = [])
    ∧ ((t.flush ser net during).raised = false)
    ∧ ((t.flush ser net during).state.buffer = during) := by
  have hcond : ((TraceState.start api_url api_key fi k ts : TraceState Event)).transport.buffer.length
        + evs.length
      < ((TraceState.start api_url api_key fi k ts : TraceState Event)).transport.flush_batch_size := by
    simpa [TraceState.start, AsyncTransport.init] using hN
  obtain ⟨ht, hp, hse, hr⟩ := TraceState.run_enq_only ser evs _ hcond
  rw [AsyncTransport.flush_empty t ser net during hemp]
  refine ⟨by rw [hse]; rfl, by rw [hp]; rfl, ?_, rfl, rfl, rfl⟩
  rw [ht]
  simp [TraceState.start, AsyncTransport.init]

/-- Witness for C6: two events enqueued at threshold 5 — nothing sent,
nothing scheduled, both events buffered — and a flush of the empty fixture
issues no request. -/
theorem c6_witness :
    (([1, 2] : List Nat).length < 5 ∧ tDemo.buffer = [])
    ∧ ((TraceState.run serNat
        (TraceState.start "https://api.agentguard.dev" "ag_test_key" (1 / 10) 5 2)
        ([1, 2].map TOp.enq)).sent = [])
    ∧ ((TraceState.run serNat
        (TraceState.start "https://api.agentguard.dev" "ag_test_key" (1 / 10) 5 2)
        ([1, 2].map TOp.enq)).transport.buffer = [1, 2])
    ∧ ((tDemo.flush serNat (PostOut.response resp202) []).requests = [])
    ∧ ((tDemo.flush serNat (PostOut.response resp202) []).state.buffer = []) := by
  have h := c6_no_network_below_threshold serNat
    "https://api.agentguard.dev" "ag_test_key" (1 / 10) 5 2
    [1, 2] tDemo (PostOut.response resp202) [] (by decide) rfl
  exact ⟨⟨by decide, rfl⟩, h.1, h.2.2.1, h.2.2.2.1, h.2.2.2.2.2⟩

/-- Claim C7: `close()` on the batching transport performs a final flush of
the remaining buffered events and then releases the network client (any
client left afterwards is closed), without raising; closing a second time
never raises either, and — when the final flush succeeded — the second close
issues no network request at all, and in any case a request issued by the
second close can only carry the initially remaining batch again, never
duplicate content beyond it.  `close()` on the direct transport is likewise
idempotent. -/
theorem c7_close_idempotent
    {Event : Type} (t : AsyncTransport Event) (ser : Event → Except String JValue)
    (js : List JValue) (net₁ net₂ : PostOut)
    (hser : serList ser t.buffer = Except.ok js) :
    ((t.close ser net₁ []).raised = false)
    ∧ (∀ c, (t.close ser net₁ []).state.client = some c → c.isClosed = true)
    ∧ (t.buffer ≠ [] → ((t.close ser net₁ []).requests).map HttpRequest.body
        = [JValue.obj [("events", JValue.arr js)]])
    ∧ (((t.close ser net₁ []).state.close ser net₂ []).raised = false)
    ∧ (postFailed net₁ = false →
        ((t.close ser net₁ []).state.close ser net₂ []).requests = [])
    ∧ (∀ b ∈ (((t.close ser net₁ []).state.close ser net₂ []).requests).map
          HttpRequest.body,
        b = JValue.obj [("events", JValue.arr js)])
    ∧ (∀ st : SyncTransport, st.close.close = st.close) := by
  have hfr₁ : (t.flush ser net₁ []).raised = false := by
    by_cases hb : t.buffer = []
    · rw [AsyncTransport.flush_empty t ser net₁ [] hb]
    · rw [AsyncTransport.flush_nonempty t ser js net₁ [] hb hser]
  have hbuf₁ : (t.close ser net₁ []).state.buffer
      = (if postFailed net₁ = true then t.buffer else []) := by
    rw [(AsyncTransport.close_state_config t ser net₁ []).2.2]
    by_cases hb : t.buffer = []
    · rw [AsyncTransport.flush_empty t ser net₁ [] hb, hb]
      simp
    · rw [AsyncTransport.flush_nonempty t ser js net₁ [] hb hser]
      by_cases hpf : postFailed net₁ = true <;> simp [hpf]
  have hser₁ : serList ser ((t.close ser net₁ []).state.buffer)
      = Except.ok (if postFailed net₁ = true then js else []) := by
    rw [hbuf₁]
    by_cases hpf : postFailed net₁ = true <;> simp [hpf, hser, serList]
  have hfr₂ : (((t.close ser net₁ []).state).flush ser net₂ []).raised = false := by
    by_cases hb : (t.close ser net₁ []).state.buffer = []
    · rw [AsyncTransport.flush_empty _ ser net₂ [] hb]
    · rw [AsyncTransport.flush_nonempty _ ser _ net₂ [] hb hser₁]
  refine ⟨AsyncTransport.close_raised_eq_false t ser net₁ [] hfr₁,
    AsyncTransport.close_client_closed t ser net₁ [] hfr₁, ?_,
    AsyncTransport.close_raised_eq_false _ ser net₂ [] hfr₂, ?_, ?_, ?_⟩
  · intro hb
    rw [AsyncTransport.close_requests_eq t ser net₁ [],
      AsyncTransport.flush_nonempty t ser js net₁ [] hb hser]
    simp
  · intro hok
    have hb : (t.close ser net₁ []).state.buffer = [] := by
      rw [hbuf₁, hok]
      simp
    rw [AsyncTransport.close_requests_eq _ ser net₂ [],
      AsyncTransport.flush_empty _ ser net₂ [] hb]
  · intro b hb
    by_cases hpf : postFailed net₁ = true
    · by_cases hemp : (t.close ser net₁ []).state.buffer = []
      · rw [AsyncTransport.close_requests_eq _ ser net₂ [],
          AsyncTransport.flush_empty _ ser net₂ [] hemp] at hb
        simp at hb
      · rw [AsyncTransport.close_requests_eq _ ser net₂ [],
          AsyncTransport.flush_nonempty _ ser _ net₂ [] hemp hser₁] at hb
        rw [hpf] at hb
        simp at hb
        rw [hb]
    · have hok : postFailed net₁ = false := by simpa using hpf
      have hemp : (t.close ser net₁ []).state.buffer = [] := by
        rw [hbuf₁, hok]
        simp
      rw [AsyncTransport.close_requests_eq _ ser net₂ [],
        AsyncTransport.flush_empty _ ser net₂ [] hemp] at hb
      simp at hb
  · have key : ∀ u : SyncTransport, u.client.isClosed = true → u.close = u := by
      intro u hu
      unfold SyncTransport.close
      simp [hu]
    intro st
    have hc : st.close.client.isClosed = true := by
      unfold SyncTransport.close
      by_cases hcl : st.client.isClosed
      · simp [hcl]
      · simp [hcl]
    exact key st.close hc

/-- Witness for C7: the fixture with events 1, 2 buffered, closed against a
202 endpoint — the final flush carries the two events, the client ends up
closed, and a second close neither raises nor issues any request. -/
theorem c7_witness :
    (serList serNat (((tDemo.enqueue 1 true).1.enqueue 2 true).1.buffer)
        = Except.ok [JValue.num 1, JValue.num 2])
    ∧ ((((tDemo.enqueue 1 true).1.enqueue 2 true).1.close serNat
          (PostOut.response resp202) []).raised = false)
    ∧ ((((tDemo.enqueue 1 true).1.enqueue 2 true).1.buffer ≠ []) →
        (((((tDemo.enqueue 1 true).1.enqueue 2 true).1.close serNat
            (PostOut.response resp202) []).requests).map HttpRequest.body
          = [JValue.obj [("events", JValue.arr [JValue.num 1, JValue.num 2])]]))
    ∧ (((((tDemo.enqueue 1 true).1.enqueue 2 true).1.close serNat
          (PostOut.response resp202) []).state.close serNat
          (PostOut.response resp202) []).raised = false)
    ∧ (postFailed (PostOut.response resp202) = false →
        ((((tDemo.enqueue 1 true).1.enqueue 2 true).1.close serNat
            (PostOut.response resp202) []).state.close serNat
            (PostOut.response resp202) []).requests = [])
    ∧ (sDemo.close.close = sDemo.close) := by
  have h := c7_close_idempotent
    (((tDemo.enqueue 1 true).1.enqueue 2 true).1) serNat
    [JValue.num 1, JValue.num 2]
    (PostOut.response resp202) (PostOut.response resp202) rfl
  exact ⟨rfl, h.1, h.2.2.1, h.2.2.2.1, h.2.2.2.2.1, h.2.2.2.2.2.2 sDemo⟩

theorem AsyncTransport.enqueue_clientInv {Event : Type} (t : AsyncTransport Event)
    (e : Event) (l : Bool) (hinv : ClientInv t) : ClientInv (t.enqueue e l).1 :=
  fun c h => hinv c h

theorem AsyncTransport.flush_clientInv {Event : Type} (t : AsyncTransport Event)
    (ser : Event → Except String JValue) (net : PostOut) (during : List Event)
    (hinv : ClientInv t) : ClientInv (t.flush ser net during).state := by
  have hinv₁ : ClientInv ({ t with buffer := [] } : AsyncTransport Event) :=
    fun c h => hinv c h
  by_cases hb : t.buffer = []
  · rw [AsyncTransport.flush_empty t ser net during hb]
    exact fun c h => hinv c h
  · cases hser : serList ser t.buffer with
    | error m =>
      rw [AsyncTransport.flush_ser_error t ser m net during hb hser]
      exact fun c h => hinv c h
    | ok js =>
      rw [AsyncTransport.flush_nonempty t ser js net during hb hser]
      exact fun c h =>
        AsyncTransport.getClient_snd_inv ({ t with buffer := [] }) hinv₁ c h

theorem AsyncTransport.flush_requests_headers {Event : Type} (t : AsyncTransport Event)
    (ser : Event → Except String JValue) (net : PostOut) (during : List Event)
    (hinv : ClientInv t) :
    ∀ req ∈ (t.flush ser net during).requests,
      req.headers = [("X-AgentGuard-Key", t.api_key)] := by
  have hinv₁ : ClientInv ({ t with buffer := [] } : AsyncTransport Event) :=
    fun c h => hinv c h
  by_cases hb : t.buffer = []
  · rw [AsyncTransport.flush_empty t ser net during hb]
    intro req hreq
    simp at hreq
  · cases hser : serList ser t.buffer with
    | error m =>
      rw [AsyncTransport.flush_ser_error t ser m net during hb hser]
      intro req hreq
      simp at hreq
    | ok js =>
      rw [AsyncTransport.flush_nonempty t ser js net during hb hser]
      intro req hreq
      simp at hreq
      rw [hreq]
      exact AsyncTransport.getClient_fst_headers ({ t with buffer := [] }) hinv₁

theorem AsyncTransport.close_clientInv {Event : Type} (t : AsyncTransport Event)
    (ser : Event → Except String JValue) (net : PostOut) (during : List Event)
    (hinv : ClientInv t) : ClientInv (t.close ser net during).state := by
  have hf := AsyncTransport.flush_clientInv t ser net during hinv
  by_cases hr : (t.flush ser net during).raised
  · rw [AsyncTransport.close_of_raised t ser net during hr]
    exact hf
  · rw [AsyncTransport.close_spec t ser net during (by simpa using hr)]
    intro c h
    cases hfc : (t.flush ser net during).state.client with
    | none => rw [hfc] at h; simp at h
    | some c₀ =>
      rw [hfc] at h
      simp only [Option.map_some', Option.some.injEq] at h
      rw [← h]
      exact hf c₀ hfc

/-- Claim C8: every outgoing HTTP request of both transports carries the
configured API key in the `X-AgentGuard-Key` header: the batching transport
starts with no client and every operation preserves the invariant that its
lazily created client holds exactly that header, so every ingestion POST of
`flush` and `close` carries it; the direct transport creates its client with
that header eagerly, so every `verify` POST carries it. -/
theorem c8_requests_carry_api_key
    {Event : Type} (t : AsyncTransport Event) (ser : Event → Except String JValue)
    (net : PostOut) (during : List Event) (e : Event) (l : Bool)
    (api_url api_key : String) (fi : ℚ) (k : Nat) (ts : ℚ)
    (ev : Event) (net' : PostOut)
    (hinv : ClientInv t) :
    ClientInv ((AsyncTransport.init api_url api_key fi k ts) : AsyncTransport Event)
    ∧ ClientInv (t.enqueue e l).1
    ∧ ClientInv (t.flush ser net during).state
    ∧ ClientInv (t.close ser net during).state
    ∧ (∀ req ∈ (t.flush ser net during).requests,
        req.headers = [("X-AgentGuard-Key", t.api_key)])
    ∧ (∀ req ∈ (t.close ser net during).requests,
        req.headers = [("X-AgentGuard-Key", t.api_key)])
    ∧ (∀ req ∈ ((SyncTransport.init api_url api_key ts).verify ser ev net').2,
        req.headers = [("X-AgentGuard-Key", api_key)]) := by
  refine ⟨fun c h => by simp [AsyncTransport.init] at h,
    AsyncTransport.enqueue_clientInv t e l hinv,
    AsyncTransport.flush_clientInv t ser net during hinv,
    AsyncTransport.close_clientInv t ser net during hinv,
    AsyncTransport.flush_requests_headers t ser net during hinv, ?_, ?_⟩
  · rw [AsyncTransport.close_requests_eq t ser net during]
    exact AsyncTransport.flush_requests_headers t ser net during hinv
  · intro req hreq
    cases hse : ser ev with
    | error m =>
      simp [SyncTransport.verify, hse] at hreq
    | ok payload =>
      cases net' with
      | netError =>
        simp [SyncTransport.verify, hse] at hreq
        rw [hreq]
        rfl
      | response r =>
        by_cases hok : statusOk r.statusCode
        · simp [SyncTransport.verify, hse, hok] at hreq
          rw [hreq]
          rfl
        · simp [SyncTransport.verify, hse, hok] at hreq
          rw [hreq]
          rfl

/-- Witness for C8: the two test fixtures with key `ag_test_key` — the flush
of events 1, 2 and a verify both issue requests whose headers are exactly
the `X-AgentGuard-Key` header with that key. -/
theorem c8_witness :
    ClientInv (((tDemo.enqueue 1 true).1.enqueue 2 true).1)
    ∧ (∀ req ∈ ((((tDemo.enqueue 1 true).1.enqueue 2 true).1.flush serNat
          (PostOut.response resp202) []).requests),
        req.headers = [("X-AgentGuard-Key",
          (((tDemo.enqueue 1 true).1.enqueue 2 true).1.api_key))])
    ∧ (∀ req ∈ ((SyncTransport.init "https://api.agentguard.dev" "ag_test_key" 2).verify
          serNat 7 (PostOut.response verdict200)).2,
        req.headers = [("X-AgentGuard-Key", "ag_test_key")]) := by
  have hinv : ClientInv (((tDemo.enqueue 1 true).1.enqueue 2 true).1) :=
    fun c h => Option.noConfusion h
  have h := c8_requests_carry_api_key
    (((tDemo.enqueue 1 true).1.enqueue 2 true).1) serNat
    (PostOut.response resp202) [] 9 true
    "https://api.agentguard.dev" "ag_test_key" (1 / 10) 5 2
    7 (PostOut.response verdict200) hinv
  exact ⟨hinv, h.2.2.2.2.1, h.2.2.2.2.2.2⟩

theorem serList_congr {Event : Type} (ser ser' : Event → Except String JValue) :
    ∀ es : List Event, (∀ x ∈ es, ser x = ser' x) →
      serList ser es = serList ser' es := by
  intro es h
  induction es with
  | nil => rfl
  | cons e es ih =>
    simp only [serList]
    rw [h e (List.mem_cons_self e es), ih (fun x hx => h x (List.mem_cons_of_mem e hx))]

/-- Claim C9: the transport layer never mutates an event — `enqueue` stores
the very event value handed to it (appending it unchanged), the buffer
after a `flush` contains only event values that were already in the buffer
or were enqueued during the attempt (never altered or fabricated ones), and
both `flush` and `verify` read an event solely through its serialization:
two serializers agreeing on the events involved produce identical results,
so no operation depends on — or changes — anything else about the event. -/
theorem c9_events_never_mutated
    {Event : Type} (t : AsyncTransport Event)
    (ser ser' : Event → Except String JValue) (net : PostOut)
    (during : List Event) (e : Event) (l : Bool) (st : SyncTransport)
    (hagree : ∀ x ∈ t.buffer, ser x = ser' x) (hagreeE : ser e = ser' e) :
    ((t.enqueue e l).1.buffer = t.buffer ++ [e])
    ∧ (∀ x ∈ (t.flush ser net during).state.buffer, x ∈ t.buffer ∨ x ∈ during)
    ∧ (t.flush ser net during = t.flush ser' net during)
    ∧ (st.verify ser e net = st.verify ser' e net) := by
  refine ⟨rfl, ?_, ?_, ?_⟩
  · intro x hx
    by_cases hb : t.buffer = []
    · rw [AsyncTransport.flush_empty t ser net during hb] at hx
      exact Or.inr hx
    · cases hser : serList ser t.buffer with
      | error m =>
        rw [AsyncTransport.flush_ser_error t ser m net during hb hser] at hx
        exact Or.inr hx
      | ok js =>
        rw [AsyncTransport.flush_nonempty t ser js net during hb hser] at hx
        by_cases hpf : postFailed net = true
        · rw [hpf] at hx
          simp at hx
          rcases hx with hx | hx
          · exact Or.inl hx
          · exact Or.inr hx
        · have : postFailed net = false := by simpa using hpf
          rw [this] at hx
          simp at hx
          exact Or.inr hx
  · have hc := serList_congr ser ser' t.buffer hagree
    unfold AsyncTransport.flush
    simp only [hc]
  · unfold SyncTransport.verify
    rw [hagreeE]

/-- Witness for C9: the fixture with events 1, 2 buffered — enqueueing 3
appends exactly it, the buffer after a failed flush with concurrent
enqueue [9] holds only original events, and flush and verify agree for two
serializers that agree on the events. -/
theorem c9_witness :
    ((∀ x ∈ (((tDemo.enqueue 1 true).1.enqueue 2 true).1.buffer),
        serNat x = serNat x)
      ∧ serNat 3 = serNat 3)
    ∧ (((((tDemo.enqueue 1 true).1.enqueue 2 true).1.enqueue 3 false).1.buffer)
        = (((tDemo.enqueue 1 true).1.enqueue 2 true).1.buffer) ++ [3])
    ∧ (∀ x ∈ ((((tDemo.enqueue 1 true).1.enqueue 2 true).1.flush serNat
          PostOut.netError [9]).state.buffer),
        x ∈ (((tDemo.enqueue 1 true).1.enqueue 2 true).1.buffer) ∨ x ∈ [9])
    ∧ ((((tDemo.enqueue 1 true).1.enqueue 2 true).1.flush serNat
          PostOut.netError [9])
        = (((tDemo.enqueue 1 true).1.enqueue 2 true).1.flush serNat
          PostOut.netError [9]))
    ∧ (sDemo.verify serNat 3 PostOut.netError
        = sDemo.verify serNat 3 PostOut.netError) := by
  have h := c9_events_never_mutated
    (((tDemo.enqueue 1 true).1.enqueue 2 true).1) serNat serNat
    PostOut.netError [9] 3 false sDemo
    (fun x _ => rfl) rfl
  exact ⟨⟨fun x _ => rfl, rfl⟩, h.1, h.2.1, h.2.2.1, h.2.2.2⟩

theorem AsyncTransport.getClient_of_closed {Event : Type} (t : AsyncTransport Event)
    (h : ∀ c, t.client = some c → c.isClosed = true) :
    (t.getClient).1
      = { timeout := t.timeout_s
          headers := [("X-AgentGuard-Key", t.api_key)]
          isClosed := false } := by
  cases hc : t.client with
  | none => simp [AsyncTransport.getClient, hc]
  | some c => simp [AsyncTransport.getClient, hc, h c hc]

/-- Claim C10 (implicit): the batching transport remains usable after
`close()` — since `_get_client` recreates the client whenever it is absent
or closed, after a close the next `_get_client` hands back a fresh open
client with the configured key header, and an enqueue followed by a flush
against a 2xx endpoint issues its POST and empties the buffer without
raising, instead of failing on the closed client. -/
theorem c10_usable_after_close
    {Event : Type} (t : AsyncTransport Event) (ser : Event → Except String JValue)
    (js : List JValue) (j : JValue) (net₁ : PostOut) (e : Event) (l : Bool)
    (r : HttpResponse)
    (hser : serList ser t.buffer = Except.ok js) (hj : ser e = Except.ok j)
    (hok : statusOk r.statusCode = true) :
    (((t.close ser net₁ []).state.getClient).1.isClosed = false)
    ∧ (((t.close ser net₁ []).state.getClient).1.headers
        = [("X-AgentGuard-Key", t.api_key)])
    ∧ (((((t.close ser net₁ []).state.enqueue e l).1.flush ser
          (PostOut.response r) []).requests).length = 1)
    ∧ ((((t.close ser net₁ []).state.enqueue e l).1.flush ser
          (PostOut.response r) []).state.buffer = [])
    ∧ ((((t.close ser net₁ []).state.enqueue e l).1.flush ser
          (PostOut.response r) []).raised = false) := by
  have hfr₁ : (t.flush ser net₁ []).raised = false := by
    by_cases hb : t.buffer = []
    · rw [AsyncTransport.flush_empty t ser net₁ [] hb]
    · rw [AsyncTransport.flush_nonempty t ser js net₁ [] hb hser]
  have hclosed := AsyncTransport.close_client_closed t ser net₁ [] hfr₁
  have hfresh := AsyncTransport.getClient_of_closed ((t.close ser net₁ []).state) hclosed
  have hbuf₁ : (t.close ser net₁ []).state.buffer
      = (if postFailed net₁ = true then t.buffer else []) := by
    rw [(AsyncTransport.close_state_config t ser net₁ []).2.2]
    by_cases hb : t.buffer = []
    · rw [AsyncTransport.flush_empty t ser net₁ [] hb, hb]
      simp
    · rw [AsyncTransport.flush_nonempty t ser js net₁ [] hb hser]
      by_cases hpf : postFailed net₁ = true <;> simp [hpf]
  have htb : (((t.close ser net₁ []).state.enqueue e l).1).buffer
      = (t.close ser net₁ []).state.buffer ++ [e] := rfl
  have hne : (((t.close ser net₁ []).state.enqueue e l).1).buffer ≠ [] := by
    rw [htb]
    simp
  have hserE : serList ser [e] = Except.ok [j] := by
    simp only [serList, hj, bind, Except.bind, pure, Except.pure]
  have hser₂ : serList ser ((((t.close ser net₁ []).state.enqueue e l).1).buffer)
      = Except.ok ((if postFailed net₁ = true then js else []) ++ [j]) := by
    rw [htb, hbuf₁]
    by_cases hpf : postFailed net₁ = true
    · rw [hpf]
      simp only [if_true]
      exact serList_append_ok ser t.buffer [e] js [j] hser hserE
    · have hok' : postFailed net₁ = false := by simpa using hpf
      rw [hok']
      simp only [Bool.false_eq_true, if_false, List.nil_append]
      simpa using hserE
  refine ⟨?_, ?_, ?_, ?_, ?_⟩
  · rw [hfresh]
  · rw [hfresh, (AsyncTransport.close_state_config t ser net₁ []).2.1]
  · rw [AsyncTransport.flush_nonempty _ ser _ (PostOut.response r) [] hne hser₂]
    rfl
  · rw [AsyncTransport.flush_nonempty _ ser _ (PostOut.response r) [] hne hser₂]
    simp [postFailed, hok]
  · rw [AsyncTransport.flush_nonempty _ ser _ (PostOut.response r) [] hne hser₂]

/-- Witness for C10: the fixture with events 1, 2 buffered, closed while the
network is down (the failed final flush keeps the events), then event 9
enqueued and flushed against a 202 endpoint — a fresh open client is used,
one request is issued, and the buffer drains. -/
theorem c10_witness :
    (serList serNat (((tDemo.enqueue 1 true).1.enqueue 2 true).1.buffer)
        = Except.ok [JValue.num 1, JValue.num 2]
      ∧ serNat 9 = Except.ok (JValue.num 9)
      ∧ statusOk resp202.statusCode = true)
    ∧ (((((tDemo.enqueue 1 true).1.enqueue 2 true).1.close serNat
          PostOut.netError []).state.getClient).1.isClosed = false)
    ∧ (((((tDemo.enqueue 1 true).1.enqueue 2 true).1.close serNat
          PostOut.netError []).state.getClient).1.headers
        = [("X-AgentGuard-Key",
            (((tDemo.enqueue 1 true).1.enqueue 2 true).1.api_key))])
    ∧ ((((((tDemo.enqueue 1 true).1.enqueue 2 true).1.close serNat
          PostOut.netError []).state.enqueue 9 true).1.flush serNat
          (PostOut.response resp202) []).requests).length = 1
    ∧ (((((tDemo.enqueue 1 true).1.enqueue 2 true).1.close serNat
          PostOut.netError []).state.enqueue 9 true).1.flush serNat
          (PostOut.response resp202) []).state.buffer = []
    ∧ (((((tDemo.enqueue 1 true).1.enqueue 2 true).1.close serNat
          PostOut.netError []).state.enqueue 9 true).1.flush serNat
          (PostOut.response resp202) []).raised = false := by
  have h := c10_usable_after_close
    (((tDemo.enqueue 1 true).1.enqueue 2 true).1) serNat
    [JValue.num 1, JValue.num 2] (JValue.num 9) PostOut.netError 9 true resp202
    rfl rfl (by decide)
  exact ⟨⟨rfl, rfl, by decide⟩, h.1, h.2.1, h.2.2.1, h.2.2.2.1, h.2.2.2.2⟩

theorem TraceState.step_runTask_pos {Event : Type} (ser : Event → Except String JValue)
    (net : PostOut) (u : TraceState Event) (hu : ¬ u.pending = 0) :
    u.step ser (TOp.runTask net)
      = { transport := (u.transport.flush ser net []).state
          pending := u.pending - 1
          sent := u.sent ++ ((u.transport.flush ser net []).requests).map HttpRequest.body
          raised := u.raised || (u.transport.flush ser net []).raised } := by
  simp only [TraceState.step, hu, if_false]

theorem TraceState.promptRun_spec {Event : Type} (ser : Event → Except String JValue)
    (hser : ∀ x : Event, ∃ jx, ser x = Except.ok jx) (ok : HttpResponse)
    (hok : statusOk ok.statusCode = true) (k : Nat) (hk : 0 < k) :
    ∀ (evs : List Event) (s : TraceState Event),
      s.pending = 0 →
      s.transport.flush_batch_size = k →
      s.transport.buffer.length < k →
      ((TraceState.promptRun ser ok s evs).pending = 0)
      ∧ ((TraceState.promptRun ser ok s evs).transport.flush_batch_size = k)
      ∧ ((TraceState.promptRun ser ok s evs).transport.buffer.length < k)
      ∧ ((TraceState.promptRun ser ok s evs).transport.buffer.length % k
          = (s.transport.buffer.length + evs.length) % k)
      ∧ ((s.sent ≠ [] ∨ k ≤ s.transport.buffer.length + evs.length) →
          (TraceState.promptRun ser ok s evs).sent ≠ []) := by
  intro evs
  induction evs with
  | nil =>
    intro s hp hbk hlen
    refine ⟨hp, hbk, hlen, by simp [TraceState.promptRun], ?_⟩
    intro h
    rcases h with h | h
    · exact h
    · simp only [List.length_nil, Nat.add_zero] at h
      exact absurd h (Nat.not_le.mpr hlen)
  | cons e evs ih =>
    intro s hp hbk hlen
    have hrun : TraceState.promptRun ser ok s (e :: evs)
        = TraceState.promptRun ser ok (TraceState.promptStep ser ok s e) evs := rfl
    have hblen : ((s.step ser (TOp.enq e)).transport.buffer).length
        = s.transport.buffer.length + 1 := by
      simp [TraceState.step, AsyncTransport.enqueue]
    have hbk₁ : (s.step ser (TOp.enq e)).transport.flush_batch_size = k := hbk
    by_cases hcase : s.transport.buffer.length + 1 < k
    · -- below the threshold: nothing scheduled, no task runs
      have h2 : (s.transport.enqueue e true).2 = false := by
        have hlt : ¬ (s.transport.flush_batch_size ≤ s.transport.buffer.length + 1) := by
          rw [hbk]; omega
        simp [AsyncTransport.enqueue, List.length_append, hlt]
      have hp₁ : (s.step ser (TOp.enq e)).pending = 0 := by
        simp only [TraceState.step, h2]
        simp [hp]
      have hps : TraceState.promptStep ser ok s e = s.step ser (TOp.enq e) := by
        unfold TraceState.promptStep
        simp [hp₁]
      obtain ⟨rp, rk, rlen, rmod, rsent⟩ := ih (s.step ser (TOp.enq e)) hp₁ hbk₁
        (by rw [hblen]; exact hcase)
      rw [hrun, hps]
      refine ⟨rp, rk, rlen, ?_, ?_⟩
      · rw [rmod, hblen, List.length_cons]
        congr 1
        omega
      · intro h
        refine rsent ?_
        rcases h with h | h
        · exact Or.inl h
        · right
          rw [hblen]
          rw [List.length_cons] at h
          omega
    · -- the enqueue reaches the threshold: a task is scheduled and run at once
      have hfull : s.transport.buffer.length + 1 = k := by omega
      have h2 : (s.transport.enqueue e true).2 = true := by
        have hge : s.transport.flush_batch_size ≤ s.transport.buffer.length + 1 := by
          rw [hbk]; omega
        simp [AsyncTransport.enqueue, List.length_append, hge]
      have hp₁ : (s.step ser (TOp.enq e)).pending = 1 := by
        simp only [TraceState.step, h2]
        simp [hp]
      have hps : TraceState.promptStep ser ok s e
          = (s.step ser (TOp.enq e)).step ser (TOp.runTask (PostOut.response ok)) := by
        unfold TraceState.promptStep
        simp [hp₁]
      have hne : (s.step ser (TOp.enq e)).transport.buffer ≠ [] := by
        intro hcontra
        rw [hcontra] at hblen
        simp at hblen
      obtain ⟨js₁, hjs₁⟩ := serList_ok_of_forall ser
        ((s.step ser (TOp.enq e)).transport.buffer) (fun x _ => hser x)
      have hflush := AsyncTransport.flush_nonempty
        ((s.step ser (TOp.enq e)).transport) ser js₁ (PostOut.response ok) [] hne hjs₁
      have hstep₂ : (s.step ser (TOp.enq e)).step ser (TOp.runTask (PostOut.response ok))
          = { transport := (((s.step ser (TOp.enq e)).transport).flush ser
                (PostOut.response ok) []).state
              pending := (s.step ser (TOp.enq e)).pending - 1
              sent := (s.step ser (TOp.enq e)).sent
                ++ ((((s.step ser (TOp.enq e)).transport).flush ser
                    (PostOut.response ok) []).requests).map HttpRequest.body
              raised := (s.step ser (TOp.enq e)).raised
                || (((s.step ser (TOp.enq e)).transport).flush ser
                    (PostOut.response ok) []).raised } :=
        TraceState.step_runTask_pos ser (PostOut.response ok)
          (s.step ser (TOp.enq e)) (by simp [hp₁])
      have hs₂b : (((s.step ser (TOp.enq e)).transport).flush ser
          (PostOut.response ok) []).state.buffer = [] := by
        rw [hflush]
        simp [postFailed, hok]
      have hs₂k : (((s.step ser (TOp.enq e)).transport).flush ser
          (PostOut.response ok) []).state.flush_batch_size = k := by
        rw [(AsyncTransport.flush_state_config ((s.step ser (TOp.enq e)).transport)
          ser (PostOut.response ok) []).2.2.2.1]
        exact hbk₁
      have hs₂sent : ((((s.step ser (TOp.enq e)).transport).flush ser
          (PostOut.response ok) []).requests).map HttpRequest.body
          = [JValue.obj [("events", JValue.arr js₁)]] := by
        rw [hflush]
        simp
      obtain ⟨rp, rk, rlen, rmod, rsent⟩ := ih
        ((s.step ser (TOp.enq e)).step ser (TOp.runTask (PostOut.response ok)))
        (by rw [hstep₂, hp₁]) (by rw [hstep₂]; exact hs₂k)
        (by rw [hstep₂]; simp only [hs₂b]; simpa using hk)
      rw [hrun, hps]
      refine ⟨rp, rk, rlen, ?_, ?_⟩
      · rw [rmod, hstep₂]
        simp only [hs₂b, List.length_nil, Nat.zero_add, List.length_cons]
        have harith : s.transport.buffer.length + (evs.length + 1) = evs.length + k := by
          omega
        rw [harith, Nat.add_mod_right]
      · intro _
        refine rsent (Or.inl ?_)
        rw [hstep₂]
        simp only [hs₂sent]
        simp

/-- Counterexample to claim C3 as stated: at threshold 3, four enqueues
before the event loop gets to run either of the two flush tasks they
scheduled, then both tasks settling with every POST succeeding (202) — the
first task flushes the whole backlog of four events and the second finds
the buffer empty, so the buffer settles at 0 events although
N mod threshold = 4 mod 3 = 1.  The claimed buffer length therefore does
not hold for every sequence of enqueue calls whose scheduled flushes all
settle successfully. -/
theorem c3_counterexample :
    c3DeferredTrace.pending = 0
    ∧ c3DeferredTrace.raised = false
    ∧ c3DeferredTrace.sent.length = 1
    ∧ c3DeferredTrace.transport.flush_batch_size = 3
    ∧ c3DeferredTrace.transport.buffer.length = 0
    ∧ c3DeferredTrace.transport.buffer.length ≠ 4 % 3 := by
  refine ⟨rfl, rfl, rfl, rfl, rfl, by decide⟩

/-- Claim C3 (amended): an enqueue that brings the buffer to (or past) the
threshold schedules a flush on the running event loop; and under the
schedule in which each scheduled flush task runs to completion successfully
before the next enqueue happens, N enqueues from a fresh transport settle
with exactly N mod threshold events in the buffer, at least one batch having
been POSTed once N reached the threshold.  Amendment forced by the
counterexample: when the N enqueues all happen before the loop runs the
scheduled tasks, the first task flushes the entire backlog and the buffer
settles at 0 instead of N mod threshold. -/
theorem c3_amended_prompt_schedule_settles_mod
    {Event : Type} (ser : Event → Except String JValue)
    (hser : ∀ x : Event, ∃ jx, ser x = Except.ok jx)
    (ok : HttpResponse) (hok : statusOk ok.statusCode = true)
    (api_url api_key : String) (fi : ℚ) (k : Nat) (ts : ℚ) (hk : 0 < k)
    (evs : List Event) (t : AsyncTransport Event) (e : Event)
    (hfull : t.flush_batch_size ≤ t.buffer.length + 1) :
    ((t.enqueue e true).2 = true)
    ∧ ((TraceState.promptRun ser ok
          (TraceState.start api_url api_key fi k ts) evs).transport.buffer.length
        = evs.length % k)
    ∧ (k ≤ evs.length →
        (TraceState.promptRun ser ok
          (TraceState.start api_url api_key fi k ts) evs).sent ≠ []) := by
  obtain ⟨rp, rk, rlen, rmod, rsent⟩ := TraceState.promptRun_spec ser hser ok hok k hk
    evs (TraceState.start api_url api_key fi k ts) rfl rfl (by simpa using hk)
  refine ⟨?_, ?_, ?_⟩
  · simp [AsyncTransport.enqueue, List.length_append, hfull]
  · rw [← Nat.mod_eq_of_lt rlen, rmod]
    simp [TraceState.start, AsyncTransport.init]
  · intro hN
    refine rsent (Or.inr ?_)
    simpa [TraceState.start, AsyncTransport.init] using hN

/-- Witness for the amended C3: threshold 3, four events enqueued under the
prompt schedule — the buffer settles at 4 mod 3 = 1 event and a batch was
sent; and the third enqueue (buffer 2 + 1 = threshold) reports a scheduled
flush. -/
theorem c3_witness :
    ((∀ x : Nat, ∃ jx, serNat x = Except.ok jx)
      ∧ statusOk resp202.statusCode = true
      ∧ 0 < 3
      ∧ (((tDemo3.enqueue 1 true).1.enqueue 2 true).1.flush_batch_size
          ≤ (((tDemo3.enqueue 1 true).1.enqueue 2 true).1.buffer).length + 1))
    ∧ (((((tDemo3.enqueue 1 true).1.enqueue 2 true).1.enqueue 3 true).2) = true)
    ∧ ((TraceState.promptRun serNat resp202
          (TraceState.start "https://api.agentguard.dev" "ag_test_key" 10 3 2)
          [1, 2, 3, 4]).transport.buffer.length
        = ([1, 2, 3, 4] : List Nat).length % 3)
    ∧ (3 ≤ ([1, 2, 3, 4] : List Nat).length →
        (TraceState.promptRun serNat resp202
          (TraceState.start "https://api.agentguard.dev" "ag_test_key" 10 3 2)
          [1, 2, 3, 4]).sent ≠ []) := by
  have h := c3_amended_prompt_schedule_settles_mod serNat
    (fun x => ⟨JValue.num x, rfl⟩) resp202 (by decide)
    "https://api.agentguard.dev" "ag_test_key" 10 3 2 (by decide)
    [1, 2, 3, 4] (((tDemo3.enqueue 1 true).1.enqueue 2 true).1) 3 (by decide)
  exact ⟨⟨fun x => ⟨JValue.num x, rfl⟩, by decide, by decide, by decide⟩,
    h.1, h.2.1, h.2.2⟩
